import Mathlib

/-!
Verification development for the opencode-claude-quota plugin.

Shallow embedding of `src/index.ts` (the OpenCode plugin) and `bin/cli.mjs`
(the standalone CLI).  Conventions used throughout:

* JavaScript numbers holding token counts and epoch-millisecond timestamps are
  modelled as `Int`; money values (`cost`) as `Rat`.
* `x || 0` on an optional numeric field is `Option.getD 0` (for a number,
  `|| 0` maps `undefined`/`null`/`0` to `0` and keeps every other value).
* ISO-8601 timestamp strings are modelled by their parsed epoch-millisecond
  value (`Option Int`; `none` is an absent field).
* Fallible I/O (filesystem reads, `JSON.parse`, `fetch`, `response.json()`) is
  modelled by environment values carrying `Except Unit` results, where
  `Except.error ()` stands for a thrown exception; a JavaScript `try…catch`
  appears as an explicit `match` collapsing `error` to the caught result.
-/

attribute [local semireducible] Rat.add Rat.mul Rat.inv

/-- Whitespace test used by the model of JavaScript `String.prototype.trim`
(the characters that actually occur in the plugin's output). -/
def isJsWs (c : Char) : Bool := c == ' ' || c == '\n' || c == '\t' || c == '\r'

/-- List-level model of JavaScript `trim`: strip leading and trailing
whitespace. -/
def jsTrimData (l : List Char) : List Char :=
  ((l.dropWhile isJsWs).reverse.dropWhile isJsWs).reverse

/-- Model of JavaScript `String.prototype.trim`. -/
def jsTrim (s : String) : String := ⟨jsTrimData s.data⟩

/-- Model of JavaScript `Math.round` (round half toward positive infinity). -/
def jsRound (q : ℚ) : ℤ := ⌊q + 1 / 2⌋

/-- Model of JavaScript `"c".repeat(n)`. -/
def repeatChar (c : Char) (n : ℕ) : String := ⟨List.replicate n c⟩

/-- Insert a thousands separator after every third character of a reversed
digit list (helper for `jsToLocaleString`). -/
def groupRev : List Char → List Char
  | a :: b :: c :: d :: rest => a :: b :: c :: ',' :: groupRev (d :: rest)
  | l => l

/-- Model of `Number.prototype.toLocaleString()` on an integer under the
default en-US locale: decimal digits with `,` thousands separators. -/
def jsToLocaleString (n : ℤ) : String :=
  (if n < 0 then "-" else "") ++ ⟨(groupRev (Nat.repr n.natAbs).data.reverse).reverse⟩

/-- Model of `Number.prototype.toFixed(4)`: round to the nearest multiple of
`1/10000` (ties toward the larger value, per the ECMA-262 ToFixed algorithm)
and print with exactly four fractional digits. -/
def toFixed4 (q : ℚ) : String :=
  let n : ℤ := ⌊q * 10000 + 1 / 2⌋
  let m : ℕ := n.natAbs
  (if n < 0 then "-" else "") ++ Nat.repr (m / 10000) ++ "." ++
    ⟨[Nat.digitChar (m / 1000 % 10), Nat.digitChar (m / 100 % 10),
      Nat.digitChar (m / 10 % 10), Nat.digitChar (m % 10)]⟩

/-- Substring containment: `strContains hay sub` holds when `sub` occurs
contiguously inside `hay` (the property JavaScript
`String.prototype.includes` checks). -/
def strContains (hay sub : String) : Prop := sub.data <:+: hay.data

instance (hay sub : String) : Decidable (strContains hay sub) :=
  inferInstanceAs (Decidable (_ <:+: _))

/-- Embedding of `formatProgressBar` (src/index.ts lines 109-114; the same
function appears as `progressBar` in bin/cli.mjs lines 37-42).  The source's
default width 20 is passed explicitly by callers here. -/
def formatProgressBar (percentage : ℚ) (width : ℕ) : String :=
  let clampedPercent : ℚ := min 100 (max 0 percentage)
  let filled : ℕ := (jsRound (clampedPercent / 100 * width)).toNat
  let empty : ℕ := width - filled
  "[" ++ repeatChar '█' filled ++ repeatChar '░' empty ++ "]"

/-- Embedding of `formatTimeRemaining` (src/index.ts lines 116-133).  The
`resets_at` ISO string is modelled by its parsed epoch value; `none` covers an
absent / empty argument (`if (!resetTime) return "unknown"`).  Note: this
version has no day branch — hours grow without bound. -/
def formatTimeRemaining (resetMs : Option ℤ) (nowMs : ℤ) : String :=
  match resetMs with
  | none => "unknown"
  | some r =>
    let diffMs := r - nowMs
    if diffMs ≤ 0 then "resetting..."
    else
      let hours := diffMs / 3600000
      let minutes := diffMs % 3600000 / 60000
      if hours > 0 then toString hours ++ "h " ++ toString minutes ++ "m"
      else toString minutes ++ "m"

/-- Embedding of `formatTime` (bin/cli.mjs lines 44-62), which does have the
`hours >= 24` day branch.  The same body appears as `formatTimeRemaining` in
the unnamed plugin variant (src/unnamed/part_000 lines 102-123). -/
def cliFormatTime (resetMs : Option ℤ) (nowMs : ℤ) : String :=
  match resetMs with
  | none => "unknown"
  | some r =>
    let diffMs := r - nowMs
    if diffMs ≤ 0 then "resetting..."
    else
      let hours := diffMs / 3600000
      let minutes := diffMs % 3600000 / 60000
      if hours ≥ 24 then toString (hours / 24) ++ "d " ++ toString (hours % 24) ++ "h"
      else if hours > 0 then toString hours ++ "h " ++ toString minutes ++ "m"
      else toString minutes ++ "m"

/-- The mutable `localState` record (src/index.ts lines 43-50 and 236-243). -/
structure LocalState where
  inputTokens : ℤ
  outputTokens : ℤ
  cacheTokens : ℤ
  cost : ℚ
  requests : ℕ
  sessionStart : ℤ
deriving DecidableEq, Repr

/-- The `tokens.cache` sub-object of an assistant message payload. -/
structure CacheTokens where
  read : Option ℤ
  write : Option ℤ
deriving DecidableEq, Repr

/-- The `message.tokens` payload object.  The handler is typed `any` in the
source; these are the numeric fields the host delivers (the spec's
`{input, output, reasoning, cacheRead, cacheWrite}`), each possibly absent. -/
structure MsgTokens where
  input : Option ℤ
  output : Option ℤ
  reasoning : Option ℤ
  cache : Option CacheTokens
deriving DecidableEq, Repr

/-- An event payload for the `message.updated` hook. -/
structure Message where
  role : String
  tokens : Option MsgTokens
  cost : Option ℚ
deriving DecidableEq, Repr

/-- Embedding of the `message.updated` handler (src/index.ts lines 260-277;
identical logic in src/unnamed/part_000 lines 190-203). -/
def onMessageUpdated (s : LocalState) (m : Message) : LocalState :=
  if m.role ≠ "assistant" then s
  else
    match m.tokens with
    | none => s
    | some t =>
      { inputTokens := s.inputTokens + t.input.getD 0
        outputTokens := s.outputTokens + t.output.getD 0
        cacheTokens := s.cacheTokens +
          ((t.cache.bind CacheTokens.read).getD 0 + (t.cache.bind CacheTokens.write).getD 0)
        cost := s.cost + m.cost.getD 0
        requests := s.requests + 1
        sessionStart := s.sessionStart }

/-- Embedding of `getTotalTokens` (src/index.ts lines 245-247). -/
def getTotalTokens (s : LocalState) : ℤ :=
  s.inputTokens + s.outputTokens + s.cacheTokens

/-- The state the plugin starts with (src/index.ts lines 236-243), at process
start time `t0`. -/
def initState (t0 : ℤ) : LocalState := ⟨0, 0, 0, 0, 0, t0⟩

/-- Embedding of the `session.created` handler (src/index.ts lines 282-290):
zero every field and stamp `sessionStart` with the current time. -/
def onSessionCreated (_s : LocalState) (now : ℤ) : LocalState := ⟨0, 0, 0, 0, 0, now⟩

/-- Embedding of the `quotaReset` tool's `execute` (src/index.ts lines
403-418): capture the pre-reset totals, zero the state, and return the
report string built from the captured totals. -/
def quotaResetExec (s : LocalState) (now : ℤ) : String × LocalState :=
  ("Local counters reset. Previous: " ++ jsToLocaleString (getTotalTokens s) ++
      " tokens, $" ++ toFixed4 s.cost,
   ⟨0, 0, 0, 0, 0, now⟩)

/-- An event qualifies for accumulation when `message.role === "assistant"`
and `message.tokens` is present (the two early returns of the handler). -/
def qualifying (m : Message) : Bool := m.role == "assistant" && m.tokens.isSome

/-- The token amount a single qualifying event adds to the counters that feed
`getTotalTokens`: `input + output + cache.read + cache.write`, each absent
field counting 0 (read off the handler's three `+=` statements). -/
def recordedTokens (m : Message) : ℤ :=
  match m.tokens with
  | none => 0
  | some t =>
    t.input.getD 0 + t.output.getD 0 +
      (t.cache.bind CacheTokens.read).getD 0 + (t.cache.bind CacheTokens.write).getD 0

/-- Spec-side definition, following claim C1's words: the per-event sum
`input + output + reasoning + cacheRead + cacheWrite`, each absent field
counting 0.  Kept separate from `recordedTokens` (which is read off the
source) so the two can be compared. -/
def specEventTokenSum (m : Message) : ℤ :=
  match m.tokens with
  | none => 0
  | some t =>
    t.input.getD 0 + t.output.getD 0 + t.reasoning.getD 0 +
      (t.cache.bind CacheTokens.read).getD 0 + (t.cache.bind CacheTokens.write).getD 0

/-- One quota window of the usage response (src/index.ts lines 23-26):
`utilization` is a 0-100 percentage, `resets_at` an ISO timestamp (modelled
by its parsed epoch-millisecond value). -/
structure QuotaUsage where
  utilization : Option ℚ
  resets_at : Option ℤ
deriving DecidableEq, Repr

/-- The usage-endpoint response shape the plugin consumes (src/index.ts
lines 28-41, restricted to the fields the plugin reads). -/
structure UsageResp where
  five_hour : Option QuotaUsage
  seven_day : Option QuotaUsage
  seven_day_sonnet : Option QuotaUsage
  seven_day_opus : Option QuotaUsage
deriving DecidableEq, Repr

/-- The `authData["anthropic"]` entry shape (src/index.ts lines 16-21):
`{type, refresh, access, expires}`.  String fields that are absent in the
JSON are modelled as `""` (both are falsy where the source tests them). -/
structure AnthEntry where
  type : String
  refresh : String
  access : String
  expires : ℤ
deriving DecidableEq, Repr

/-- Environment seen by `getAnthropicAuth`: whether a credential file exists
at some candidate path, and the outcome of reading + `JSON.parse`-ing it.
`Except.error ()` is a thrown read/parse exception; `Except.ok none` is a
file that parses but has no (or a falsy) `anthropic` entry. -/
structure AuthFileEnv where
  fileExists : Bool
  parsed : Except Unit (Option AnthEntry)
deriving Repr

/-- Embedding of `getAnthropicAuth` (src/index.ts lines 79-103; identical in
src/unnamed/part_000 lines 75-89).  The surrounding `try…catch { return
null }` appears as the match collapsing a parse exception to `none`. -/
def getAnthropicAuth (env : AuthFileEnv) : Option AnthEntry :=
  if env.fileExists then
    match env.parsed with
    | .error _ => none
    | .ok none => none
    | .ok (some e) => if e.type ≠ "oauth" then none else some e
  else none

/-- Outcome of one `fetch` call: `netErr` is a network-level exception;
`resp ok body` is an HTTP response with its `response.ok` flag and the result
of `await response.json()` (which may itself throw: `Except.error ()`). -/
inductive NetResult (α : Type) where
  | netErr : NetResult α
  | resp (ok : Bool) (body : Except Unit α) : NetResult α
deriving Repr

/-- Network environment for `fetchClaudeUsage`: the OAuth usage endpoint
(keyed by the bearer token it is called with), the claude.ai organizations
endpoint (body: `none` when the JSON is not an array, otherwise the listed
org uuids), and the per-organization usage endpoint (keyed by org uuid). -/
structure NetEnv where
  oauthUsage : String → NetResult UsageResp
  orgs : NetResult (Option (List String))
  usageFor : String → NetResult UsageResp

/-- Embedding of `refreshAccessToken` (src/index.ts lines 139-168): `none`
models a `null`/`undefined` return (non-success status, network error, parse
error, or missing `access_token` field). -/
def refreshAccessToken (renv : NetResult (Option String)) : Option String :=
  match renv with
  | .netErr => none
  | .resp ok body =>
    if ok then
      match body with
      | .ok t => t
      | .error _ => none
    else none

/-- The refresh call failed outright: non-success HTTP status or a network
error (the two failure modes named by the spec). -/
def refreshFailed (renv : NetResult (Option String)) : Prop :=
  match renv with
  | .netErr => True
  | .resp ok _ => ok = false

/-- An endpoint call that did not produce a success response: network error
or non-success HTTP status. -/
def endpointFailed {α : Type} : NetResult α → Prop
  | .netErr => True
  | .resp ok _ => ok = false

/-- The body of `fetchClaudeUsage` (src/index.ts lines 170-230) *without* its
outer `try…catch`, as an `Except` computation: `Except.error ()` marks a
point where the JavaScript would throw (network error or `json()` failure).
Chain: OAuth usage endpoint, then the claude.ai organizations endpoint, then
the per-org usage endpoint; every non-success response returns `null`. -/
def fetchClaudeUsageBody (net : NetEnv) (tok : String) : Except Unit (Option UsageResp) :=
  match net.oauthUsage tok with
  | .netErr => .error ()
  | .resp ok body =>
    if ok then
      match body with
      | .error e => .error e
      | .ok d => .ok (some d)
    else
      match net.orgs with
      | .netErr => .error ()
      | .resp ok2 body2 =>
        if ok2 then
          match body2 with
          | .error e => .error e
          | .ok none => .ok none
          | .ok (some []) => .ok none
          | .ok (some (orgId :: _)) =>
            match net.usageFor orgId with
            | .netErr => .error ()
            | .resp ok3 body3 =>
              if ok3 then
                match body3 with
                | .error e => .error e
                | .ok d => .ok (some d)
              else .ok none
        else .ok none

/-- Embedding of `fetchClaudeUsage` (src/index.ts lines 170-230): the body
wrapped in `try…catch { return null }`. -/
def fetchClaudeUsage (net : NetEnv) (tok : String) : Option UsageResp :=
  match fetchClaudeUsageBody net tok with
  | .ok v => v
  | .error _ => none

/-- The token-selection steps of the `quota` tool (src/index.ts lines
307-314; identically `getQuotaData` in src/unnamed/part_000 lines 170-174):
start from `auth.access`; when expired, adopt the refreshed token only if it
is truthy (non-empty). -/
def selectAccessToken (auth : AnthEntry) (newToken : Option String) (now : ℤ) : String :=
  if auth.expires < now then
    match newToken with
    | some t => if t = "" then auth.access else t
    | none => auth.access
  else auth.access

/-- Which bearer token the usage call is made with, if it is made at all
(src/index.ts lines 316-318: `if (accessToken) { … fetchClaudeUsage(…) }`).
`none` means the quota fetch gives up before calling the usage endpoint. -/
def usedUsageToken (auth : AnthEntry) (newToken : Option String) (now : ℤ) : Option String :=
  let a := selectAccessToken auth newToken now
  if a = "" then none else some a

/-- The full remote-fetch pipeline of the `quota` tool (src/index.ts lines
300-319; `getQuotaData` in src/unnamed/part_000 lines 166-177): resolve
credentials, refresh the token if expired (best effort), and call the usage
endpoint when a truthy token is available. -/
def quotaFetchPipeline (aenv : AuthFileEnv) (renv : NetResult (Option String))
    (net : NetEnv) (now : ℤ) : Option UsageResp :=
  match getAnthropicAuth aenv with
  | none => none
  | some auth =>
    let newToken := if auth.expires < now then refreshAccessToken renv else none
    match usedUsageToken auth newToken now with
    | none => none
    | some tok => fetchClaudeUsage net tok

/-- The per-model table rows appended to the quota section (src/index.ts
lines 347-361): a row renders only when the window object is present and its
`utilization` is not `undefined`. -/
def perModelRow (label : String) (w : Option QuotaUsage) : String :=
  match w with
  | none => ""
  | some q =>
    match q.utilization with
    | none => ""
    | some v => "\n| " ++ label ++ " | " ++ toString (jsRound v) ++ "% |"

/-- Embedding of the success branch of the `quota` tool (src/index.ts lines
321-361): session and weekly windows with progress bars, plus the optional
per-model weekly table. -/
def renderQuotaSection (u : UsageResp) (now : ℤ) : String :=
  let sessionUsed : ℤ := jsRound ((u.five_hour.bind QuotaUsage.utilization).getD 0)
  let sessionRemaining : ℤ := 100 - sessionUsed
  let sessionResetIn := formatTimeRemaining (u.five_hour.bind QuotaUsage.resets_at) now
  let sessionBar := formatProgressBar (sessionUsed : ℚ) 20
  let weeklyUsed : ℤ := jsRound ((u.seven_day.bind QuotaUsage.utilization).getD 0)
  let weeklyRemaining : ℤ := 100 - weeklyUsed
  let weeklyResetIn := formatTimeRemaining (u.seven_day.bind QuotaUsage.resets_at) now
  let weeklyBar := formatProgressBar (weeklyUsed : ℚ) 20
  let base :=
    "\n## Claude Code Quota (from Claude.ai)\n\n### Session (5-hour window)\n" ++
      sessionBar ++ " **" ++ toString sessionUsed ++ "%** used | **" ++
      toString sessionRemaining ++ "%** remaining\nResets in: " ++ sessionResetIn ++
      "\n\n### Weekly (All Models)\n" ++ weeklyBar ++ " **" ++ toString weeklyUsed ++
      "%** used | **" ++ toString weeklyRemaining ++ "%** remaining\nResets in: " ++
      weeklyResetIn ++ "\n"
  if u.seven_day_sonnet.isSome || u.seven_day_opus.isSome then
    base ++ "\n### Per-Model Weekly Usage\n| Model | Used |\n|-------|------|" ++
      perModelRow "Sonnet" u.seven_day_sonnet ++ perModelRow "Opus" u.seven_day_opus
  else base

/-- The fallback quota section returned when no usage data could be fetched
(src/index.ts lines 362-377), verbatim. -/
def fallbackSection : String :=
  "\n## Claude Code Quota\n\nCould not fetch quota from Claude.ai\n\nPossible reasons:\n- Not logged in with Claude Pro/Max (OAuth)\n- Access token expired and refresh failed\n- API endpoint changed\n\nTo see your actual quota:\n1. Visit https://claude.ai/settings\n2. Check \"Usage summary\" section\n"

/-- The Local Session Tracking section (src/index.ts lines 379-397),
verbatim: the token table, request count, session minutes and estimated
cost. -/
def localSection (s : LocalState) (now : ℤ) : String :=
  "\n---\n\n## Local Session Tracking\n\n| Metric | Value |\n|--------|-------|\n| Tokens Used | " ++
    jsToLocaleString (getTotalTokens s) ++
    " |\n| Input | " ++ jsToLocaleString s.inputTokens ++
    " |\n| Output | " ++ jsToLocaleString s.outputTokens ++
    " |\n| Cache | " ++ jsToLocaleString s.cacheTokens ++
    " |\n| Requests | " ++ toString s.requests ++
    " |\n| Session Time | " ++ toString (Int.fdiv (now - s.sessionStart) 60000) ++
    " min |\n| Est. Cost | $" ++ toFixed4 s.cost ++ " |\n"

/-- The string the `quota` tool returns given the fetch outcome `u`
(src/index.ts lines 321-399): quota section (or fallback) followed by the
local tracking section, trimmed. -/
def quotaToolOutput (u : Option UsageResp) (s : LocalState) (now : ℤ) : String :=
  let quotaSection := match u with | some d => renderQuotaSection d now | none => fallbackSection
  jsTrim (quotaSection ++ localSection s now)

/-- Full embedding of the `quota` tool's `execute` (src/index.ts lines
300-400): run the remote-fetch pipeline, then render. -/
def quotaExecute (aenv : AuthFileEnv) (renv : NetResult (Option String)) (net : NetEnv)
    (s : LocalState) (now : ℤ) : String :=
  quotaToolOutput (quotaFetchPipeline aenv renv net now) s now

/-- The fallback block as it appears in the trimmed tool output (the leading
newline of `fallbackSection` is eaten by `trim` when the block is first). -/
def fallbackBlockTrimmed : String := ⟨fallbackSection.data.dropWhile isJsWs⟩

/-- Number of occurrences of a character in a string (used to state facts
about the rendered progress bar). -/
def countChar (s : String) (c : Char) : ℕ := s.data.count c

/-! Helper lemmas. -/

theorem getTotalTokens_onMessageUpdated (s : LocalState) (m : Message) :
    getTotalTokens (onMessageUpdated s m) =
      getTotalTokens s + (if qualifying m then recordedTokens m else 0) := by
  unfold onMessageUpdated qualifying recordedTokens getTotalTokens
  by_cases hr : m.role = "assistant"
  · cases htok : m.tokens with
    | none => simp [hr, htok]
    | some t => simp [hr, htok]; ring
  · simp [hr]

theorem onMessageUpdated_noop (s : LocalState) (m : Message)
    (h : qualifying m = false) : onMessageUpdated s m = s := by
  unfold qualifying at h
  unfold onMessageUpdated
  by_cases hr : m.role = "assistant"
  · cases htok : m.tokens with
    | none => simp [hr, htok]
    | some t => simp [hr, htok] at h
  · simp [hr]

theorem total_foldl (events : List Message) :
    ∀ s : LocalState, getTotalTokens (events.foldl onMessageUpdated s) =
      getTotalTokens s + ((events.filter qualifying).map recordedTokens).sum := by
  induction events with
  | nil => intro s; simp
  | cons m tl ih =>
    intro s
    rw [List.foldl_cons, ih]
    by_cases hq : qualifying m
    · rw [List.filter_cons_of_pos hq, List.map_cons, List.sum_cons,
        getTotalTokens_onMessageUpdated, if_pos hq]
      ring
    · rw [List.filter_cons_of_neg (by simpa using hq),
        onMessageUpdated_noop s m (by simpa using hq)]

theorem dropWhile_append_left (p : Char → Bool) (l₁ l₂ : List Char)
    (h : l₁.dropWhile p ≠ []) :
    (l₁ ++ l₂).dropWhile p = l₁.dropWhile p ++ l₂ := by
  induction l₁ with
  | nil => simp at h
  | cons a t ih =>
    by_cases hp : p a
    · rw [List.dropWhile_cons] at h
      simp only [hp, if_pos] at h
      simp only [List.cons_append, List.dropWhile_cons, hp, if_pos]
      exact ih h
    · simp [List.dropWhile_cons, hp]

theorem jsTrimData_concat (u mid : List Char) (hu : u.dropWhile isJsWs ≠ []) :
    jsTrimData (u ++ (mid ++ [' ', '|', '\n'])) =
      u.dropWhile isJsWs ++ (mid ++ [' ', '|']) := by
  have hnl : isJsWs '\n' = true := rfl
  have hbar : isJsWs '|' = false := rfl
  unfold jsTrimData
  rw [dropWhile_append_left _ _ _ hu]
  rw [List.reverse_append]
  rw [show (mid ++ [' ', '|', '\n']).reverse = '\n' :: '|' :: ' ' :: mid.reverse by
    simp]
  rw [show ('\n' :: '|' :: ' ' :: mid.reverse ++ (u.dropWhile isJsWs).reverse).dropWhile isJsWs
      = '|' :: ' ' :: mid.reverse ++ (u.dropWhile isJsWs).reverse by
    simp [List.dropWhile_cons, hnl, hbar]]
  simp

/-! Claim C1. -/

/-- Claim C1, amended: after any sequence of `message.updated` events starting
from the fresh local state, `getTotalTokens` equals the sum over the
qualifying events of that event's `input + output + cacheRead + cacheWrite`
token fields (each absent field counting 0).  The source never reads a
`reasoning` field, so reasoning tokens are not part of the sum. -/
theorem claim_C1_total_is_sum_of_recorded (t0 : ℤ) (events : List Message) :
    getTotalTokens (events.foldl onMessageUpdated (initState t0)) =
      ((events.filter qualifying).map recordedTokens).sum := by
  rw [total_foldl]
  simp [initState, getTotalTokens]

/-- Claim C1 as frozen is false on the code: one qualifying assistant event
carrying only `reasoning: 5` leaves the total at 0, while the claimed sum
(which includes reasoning) is 5. -/
theorem claim_C1_counterexample :
    getTotalTokens
        (([⟨"assistant", some ⟨none, none, some 5, none⟩, none⟩] : List Message).foldl
          onMessageUpdated (initState 0)) ≠
      (([⟨"assistant", some ⟨none, none, some 5, none⟩, none⟩] : List Message).map
          specEventTokenSum).sum := by
  decide

/-! Claim C3. -/

/-- Claim C3: the `quotaReset` tool reports exactly the pre-reset total token
count and pre-reset cost (interpolated into its return string), and leaves
every token counter, the cost accumulator and the request count at 0, with
`sessionStart` set to the reset time. -/
theorem claim_C3_reset_reports_previous_and_zeroes (s : LocalState) (now : ℤ) :
    (quotaResetExec s now).1 =
      "Local counters reset. Previous: " ++ jsToLocaleString (getTotalTokens s) ++
        " tokens, $" ++ toFixed4 s.cost ∧
    (quotaResetExec s now).2.inputTokens = 0 ∧
    (quotaResetExec s now).2.outputTokens = 0 ∧
    (quotaResetExec s now).2.cacheTokens = 0 ∧
    (quotaResetExec s now).2.cost = 0 ∧
    (quotaResetExec s now).2.requests = 0 ∧
    (quotaResetExec s now).2.sessionStart = now :=
  ⟨rfl, rfl, rfl, rfl, rfl, rfl, rfl⟩

/-! Claim C5. -/

/-- Claim C5: at a delta of 25 hours the plugin's `formatTimeRemaining`
(src/index.ts) returns `"25h 0m"`, not the `"1d 1h"` day-and-hour form the
claim (and the README, the CLI's `formatTime`, and the part_000 variant)
specify; the remaining branches do match the claim. -/
theorem claim_C5_no_day_branch :
    formatTimeRemaining (some 90000000) 0 = "25h 0m" ∧
    cliFormatTime (some 90000000) 0 = "1d 1h" ∧
    "25h 0m" ≠ "1d 1h" ∧
    formatTimeRemaining none 0 = "unknown" ∧
    formatTimeRemaining (some 0) 0 = "resetting..." ∧
    formatTimeRemaining (some 14280000) 0 = "3h 58m" ∧
    formatTimeRemaining (some 300000) 0 = "5m" := by
  refine ⟨by decide, by decide, by decide, rfl, by decide, by decide, by decide⟩

/-! Claim C8. -/

/-- Claim C8, amended: across a `message.updated` event whose present numeric
fields are all non-negative, every counter (each token counter, the cost
accumulator, the request count) is non-decreasing.  (For arbitrary payloads
this fails: a negative `tokens.input` is added as-is, see the
counterexample.) -/
theorem claim_C8_counters_monotone (s : LocalState) (m : Message)
    (htok : ∀ t, m.tokens = some t →
      0 ≤ t.input.getD 0 ∧ 0 ≤ t.output.getD 0 ∧
        0 ≤ (t.cache.bind CacheTokens.read).getD 0 ∧
        0 ≤ (t.cache.bind CacheTokens.write).getD 0)
    (hcost : 0 ≤ m.cost.getD 0) :
    s.inputTokens ≤ (onMessageUpdated s m).inputTokens ∧
    s.outputTokens ≤ (onMessageUpdated s m).outputTokens ∧
    s.cacheTokens ≤ (onMessageUpdated s m).cacheTokens ∧
    s.cost ≤ (onMessageUpdated s m).cost ∧
    s.requests ≤ (onMessageUpdated s m).requests := by
  unfold onMessageUpdated
  by_cases hr : m.role = "assistant"
  · cases htk : m.tokens with
    | none => simp [hr, htk]
    | some t =>
      obtain ⟨h1, h2, h3, h4⟩ := htok t htk
      simp only [hr, ne_eq, not_true_eq_false, if_false, htk]
      refine ⟨by linarith, by linarith, by linarith, by linarith, by omega⟩
  · simp [hr]

/-- Witness for the amended claim C8 at a concrete state and payload. -/
theorem claim_C8_counters_monotone_witness :
    (⟨7, 8, 9, 1, 2, 0⟩ : LocalState).inputTokens ≤
      (onMessageUpdated ⟨7, 8, 9, 1, 2, 0⟩
        ⟨"assistant", some ⟨some 2, some 3, none, some ⟨some 1, some 4⟩⟩, some 1⟩).inputTokens ∧
    (⟨7, 8, 9, 1, 2, 0⟩ : LocalState).cost ≤
      (onMessageUpdated ⟨7, 8, 9, 1, 2, 0⟩
        ⟨"assistant", some ⟨some 2, some 3, none, some ⟨some 1, some 4⟩⟩, some 1⟩).cost := by
  have h := claim_C8_counters_monotone ⟨7, 8, 9, 1, 2, 0⟩
    ⟨"assistant", some ⟨some 2, some 3, none, some ⟨some 1, some 4⟩⟩, some 1⟩
    (by intro t ht; cases ht; refine ⟨by decide, by decide, by decide, by decide⟩)
    (by decide)
  exact ⟨h.1, h.2.2.2.1⟩

/-- Claim C8 as frozen ("for every possible event payload") is false on the
code: a payload with `tokens.input = -1` strictly decreases `inputTokens`
(the handler adds the raw value; `|| 0` only replaces falsy values). -/
theorem claim_C8_counterexample :
    ¬ ((initState 0).inputTokens ≤
        (onMessageUpdated (initState 0)
          ⟨"assistant", some ⟨some (-1), none, none, none⟩, none⟩).inputTokens) := by
  decide

/-! Claim C9. -/

/-- Claim C9: the `session.created` handler is, as a state transformer, the
state component of the `quotaReset` tool at the same instant; the two differ
only in that `quotaReset` also returns the previous totals. -/
theorem claim_C9_sessionCreated_equals_reset (s : LocalState) (now : ℤ) :
    onSessionCreated s now = (quotaResetExec s now).2 := rfl

/-! Claim C10. -/

/-- Claim C10: the handler folds `cache.read` and `cache.write` into the one
`cacheTokens` counter, so swapping the two cache fields of an event yields
exactly the same resulting state. -/
theorem claim_C10_cache_fields_symmetric (s : LocalState) (role : String)
    (inp out rsn : Option ℤ) (a b : Option ℤ) (c : Option ℚ) :
    onMessageUpdated s ⟨role, some ⟨inp, out, rsn, some ⟨a, b⟩⟩, c⟩ =
      onMessageUpdated s ⟨role, some ⟨inp, out, rsn, some ⟨b, a⟩⟩, c⟩ := by
  unfold onMessageUpdated
  by_cases hr : role = "assistant"
  · simp [hr, Option.bind]
    ring
  · simp [hr]

/-! Claim C6. -/

theorem clamp_nonneg (p : ℚ) : 0 ≤ min 100 (max 0 p) :=
  le_min (by norm_num) (le_max_left 0 p)

theorem clamp_le_100 (p : ℚ) : min 100 (max 0 p) ≤ 100 := min_le_left _ _

theorem filled_le_width (p : ℚ) (w : ℕ) :
    (jsRound (min 100 (max 0 p) / 100 * w)).toNat ≤ w := by
  have h100 : min 100 (max 0 p) ≤ 100 := clamp_le_100 p
  have hq : min 100 (max 0 p) / 100 * (w : ℚ) ≤ (w : ℚ) := by
    have h1 : min 100 (max 0 p) / 100 ≤ 1 := (div_le_one (by norm_num)).mpr h100
    have h2 : (0 : ℚ) ≤ (w : ℚ) := by positivity
    calc min 100 (max 0 p) / 100 * (w : ℚ) ≤ 1 * (w : ℚ) :=
          mul_le_mul_of_nonneg_right h1 h2
      _ = (w : ℚ) := one_mul _
  have hw : ⌊(w : ℚ) + 1 / 2⌋ = (w : ℤ) := by
    rw [add_comm, show ((w : ℕ) : ℚ) = (((w : ℕ) : ℤ) : ℚ) from by push_cast; ring,
      Int.floor_add_int]
    norm_num
  have hfl : jsRound (min 100 (max 0 p) / 100 * w) ≤ (w : ℤ) := by
    unfold jsRound
    have h3 := Int.floor_le_floor (add_le_add_right hq (1 / 2 : ℚ))
    rw [hw] at h3
    exact h3
  exact Int.toNat_le.mpr hfl

theorem countChar_bar (f e : ℕ) :
    countChar ("[" ++ repeatChar '█' f ++ repeatChar '░' e ++ "]") '█' = f ∧
      countChar ("[" ++ repeatChar '█' f ++ repeatChar '░' e ++ "]") '░' = e := by
  unfold countChar repeatChar
  constructor <;>
    simp [String.data_append, List.count_append, List.count_replicate]

/-- Claim C6: `formatProgressBar` clamps its percentage to [0,100]; the
rendered bar has `round(clamped/100 × width)` filled glyphs and
`width − filled` empty ones (so filled + empty = width); and the three
concrete cases of the claim hold. -/
theorem claim_C6_progressBar (p : ℚ) (w : ℕ) :
    formatProgressBar p w = formatProgressBar (min 100 (max 0 p)) w ∧
    countChar (formatProgressBar p w) '█' =
      (jsRound (min 100 (max 0 p) / 100 * w)).toNat ∧
    countChar (formatProgressBar p w) '█' + countChar (formatProgressBar p w) '░' = w ∧
    formatProgressBar 0 20 = "[" ++ repeatChar '░' 20 ++ "]" ∧
    formatProgressBar 100 20 = "[" ++ repeatChar '█' 20 ++ "]" ∧
    formatProgressBar 150 10 = formatProgressBar 100 10 := by
  have h0 : 0 ≤ min 100 (max 0 p) := clamp_nonneg p
  have h100 : min 100 (max 0 p) ≤ 100 := clamp_le_100 p
  have hc : min 100 (max 0 (min 100 (max 0 p))) = min 100 (max 0 p) := by
    rw [max_eq_right h0, min_eq_right h100]
  have hcount := countChar_bar ((jsRound (min 100 (max 0 p) / 100 * w)).toNat)
    (w - (jsRound (min 100 (max 0 p) / 100 * w)).toNat)
  have hfe := filled_le_width p w
  refine ⟨by simp [formatProgressBar, hc], ?_, ?_, by decide, by decide, by decide⟩
  · show countChar (formatProgressBar p w) '█' = _
    unfold formatProgressBar
    exact hcount.1
  · show countChar (formatProgressBar p w) '█' + countChar (formatProgressBar p w) '░' = w
    unfold formatProgressBar
    rw [hcount.1, hcount.2]
    omega

/-! Claim C2. -/

theorem refreshAccessToken_none_of_failed (renv : NetResult (Option String))
    (h : refreshFailed renv) : refreshAccessToken renv = none := by
  cases renv with
  | netErr => rfl
  | resp ok body =>
    have hok : ok = false := h
    subst hok
    rfl

/-- Claim C2, amended: for every credential with `expires` strictly before
now and a non-empty stored access token, a failed token refresh (non-success
status or network error) still leads to the usage endpoint being called, with
the original (stale) access token.  The amendment: when the stored access
token is the empty string, the `if (accessToken)` guard makes the fetch give
up before the usage call instead (see the counterexample). -/
theorem claim_C2_stale_token_proceeds (aenv : AuthFileEnv) (auth : AnthEntry)
    (renv : NetResult (Option String)) (net : NetEnv) (now : ℤ)
    (hauth : getAnthropicAuth aenv = some auth)
    (hexp : auth.expires < now) (hfail : refreshFailed renv)
    (hne : auth.access ≠ "") :
    usedUsageToken auth (refreshAccessToken renv) now = some auth.access ∧
      quotaFetchPipeline aenv renv net now = fetchClaudeUsage net auth.access := by
  have hrf := refreshAccessToken_none_of_failed renv hfail
  have hsel : selectAccessToken auth (refreshAccessToken renv) now = auth.access := by
    unfold selectAccessToken
    rw [hrf, if_pos hexp]
  have hused : usedUsageToken auth (refreshAccessToken renv) now = some auth.access := by
    unfold usedUsageToken
    rw [hsel, if_neg hne]
  refine ⟨hused, ?_⟩
  unfold quotaFetchPipeline
  rw [hauth]
  simp only [if_pos hexp]
  rw [hused]

/-- Witness for claim C2 at a concrete expired credential and failing
refresh. -/
theorem claim_C2_stale_token_proceeds_witness :
    usedUsageToken ⟨"oauth", "rtok", "atok", 0⟩ (refreshAccessToken NetResult.netErr) 1 =
        some "atok" ∧
      quotaFetchPipeline ⟨true, .ok (some ⟨"oauth", "rtok", "atok", 0⟩)⟩ NetResult.netErr
          ⟨fun _ => NetResult.netErr, NetResult.netErr, fun _ => NetResult.netErr⟩ 1 =
        fetchClaudeUsage
          ⟨fun _ => NetResult.netErr, NetResult.netErr, fun _ => NetResult.netErr⟩ "atok" :=
  claim_C2_stale_token_proceeds ⟨true, .ok (some ⟨"oauth", "rtok", "atok", 0⟩)⟩
    ⟨"oauth", "rtok", "atok", 0⟩ NetResult.netErr
    ⟨fun _ => NetResult.netErr, NetResult.netErr, fun _ => NetResult.netErr⟩ 1
    (by decide) (by decide) trivial (by decide)

/-- Claim C2 as frozen is false on the code at a credential whose stored
access token is the empty string: despite `expires < now` and a failed
refresh, the fetch gives up (`usedUsageToken = none`) and the pipeline
returns `none` even though the usage endpoint would have answered. -/
theorem claim_C2_counterexample :
    (⟨"oauth", "rtok", "", 0⟩ : AnthEntry).expires < 1 ∧
    refreshFailed (NetResult.netErr : NetResult (Option String)) ∧
    usedUsageToken ⟨"oauth", "rtok", "", 0⟩ (refreshAccessToken NetResult.netErr) 1 = none ∧
    quotaFetchPipeline ⟨true, .ok (some ⟨"oauth", "rtok", "", 0⟩)⟩ NetResult.netErr
        ⟨fun _ => NetResult.resp true (.ok ⟨none, none, none, none⟩), NetResult.netErr,
          fun _ => NetResult.netErr⟩ 1 = none :=
  ⟨by decide, trivial, rfl, rfl⟩

/-! Claim C7. -/

theorem getAnthropicAuth_none_of_noFile (aenv : AuthFileEnv)
    (h : aenv.fileExists = false) : getAnthropicAuth aenv = none := by
  unfold getAnthropicAuth
  rw [h]
  rfl

theorem pipeline_none_of_auth_none (aenv : AuthFileEnv) (renv : NetResult (Option String))
    (net : NetEnv) (now : ℤ) (h : getAnthropicAuth aenv = none) :
    quotaFetchPipeline aenv renv net now = none := by
  unfold quotaFetchPipeline
  rw [h]

theorem fetchClaudeUsage_none_of_endpoints_fail (net : NetEnv) (tok : String)
    (h1 : endpointFailed (net.oauthUsage tok))
    (h2 : ∀ oid, endpointFailed (net.usageFor oid)) :
    fetchClaudeUsage net tok = none := by
  cases ho : net.oauthUsage tok with
  | netErr => simp [fetchClaudeUsage, fetchClaudeUsageBody, ho]
  | resp ok body =>
    have hok : ok = false := by rw [ho] at h1; exact h1
    subst hok
    cases horgs : net.orgs with
    | netErr => simp [fetchClaudeUsage, fetchClaudeUsageBody, ho, horgs]
    | resp ok2 body2 =>
      cases ok2 with
      | false => simp [fetchClaudeUsage, fetchClaudeUsageBody, ho, horgs]
      | true =>
        cases body2 with
        | error e => simp [fetchClaudeUsage, fetchClaudeUsageBody, ho, horgs]
        | ok orgs =>
          cases orgs with
          | none => simp [fetchClaudeUsage, fetchClaudeUsageBody, ho, horgs]
          | some l =>
            cases l with
            | nil => simp [fetchClaudeUsage, fetchClaudeUsageBody, ho, horgs]
            | cons oid rest =>
              have h3 := h2 oid
              cases hu : net.usageFor oid with
              | netErr => simp [fetchClaudeUsage, fetchClaudeUsageBody, ho, horgs, hu]
              | resp ok3 body3 =>
                have hok3 : ok3 = false := by rw [hu] at h3; exact h3
                subst hok3
                simp [fetchClaudeUsage, fetchClaudeUsageBody, ho, horgs, hu]

/-- Claim C7: every failure mode of the quota fetch collapses to the
Unavailable result (`none`), and an exception inside the fetch body is caught
(never propagated): missing credential file, unparsable credential JSON,
missing or non-OAuth provider entry, a thrown exception anywhere in the usage
fetch, failing usage endpoints, and the refresh-failed-then-usage-failed
path. -/
theorem claim_C7_failures_collapse_to_none (aenv : AuthFileEnv)
    (renv : NetResult (Option String)) (net : NetEnv) (now : ℤ) :
    (aenv.fileExists = false → quotaFetchPipeline aenv renv net now = none) ∧
    (aenv.parsed = .error () → quotaFetchPipeline aenv renv net now = none) ∧
    (aenv.parsed = .ok none → quotaFetchPipeline aenv renv net now = none) ∧
    (∀ e, aenv.parsed = .ok (some e) → e.type ≠ "oauth" →
      quotaFetchPipeline aenv renv net now = none) ∧
    (∀ tok, fetchClaudeUsageBody net tok = .error () → fetchClaudeUsage net tok = none) ∧
    (∀ tok, endpointFailed (net.oauthUsage tok) →
      (∀ oid, endpointFailed (net.usageFor oid)) → fetchClaudeUsage net tok = none) ∧
    (refreshFailed renv → (∀ tok, endpointFailed (net.oauthUsage tok)) →
      (∀ oid, endpointFailed (net.usageFor oid)) →
      quotaFetchPipeline aenv renv net now = none) := by
  refine ⟨?_, ?_, ?_, ?_, ?_, ?_, ?_⟩
  · intro h
    exact pipeline_none_of_auth_none _ _ _ _ (getAnthropicAuth_none_of_noFile _ h)
  · intro h
    refine pipeline_none_of_auth_none _ _ _ _ ?_
    unfold getAnthropicAuth
    rw [h]
    cases aenv.fileExists <;> rfl
  · intro h
    refine pipeline_none_of_auth_none _ _ _ _ ?_
    unfold getAnthropicAuth
    rw [h]
    cases aenv.fileExists <;> rfl
  · intro e he htype
    refine pipeline_none_of_auth_none _ _ _ _ ?_
    unfold getAnthropicAuth
    rw [he]
    cases aenv.fileExists with
    | false => rfl
    | true => simp [htype]
  · intro tok h
    unfold fetchClaudeUsage
    rw [h]
  · intro tok h1 h2
    exact fetchClaudeUsage_none_of_endpoints_fail net tok h1 h2
  · intro _hrf h1 h2
    unfold quotaFetchPipeline
    cases ha : getAnthropicAuth aenv with
    | none => rfl
    | some auth =>
      simp only []
      cases husa : usedUsageToken auth
          (if auth.expires < now then refreshAccessToken renv else none) now with
      | none => rfl
      | some tok => exact fetchClaudeUsage_none_of_endpoints_fail net tok (h1 tok) h2

/-- Witness for claim C7 at concrete environments: a missing credential file
and a net environment whose endpoints all answer non-success. -/
theorem claim_C7_failures_collapse_to_none_witness :
    quotaFetchPipeline ⟨false, .ok none⟩ NetResult.netErr
        ⟨fun _ => NetResult.netErr, NetResult.netErr, fun _ => NetResult.netErr⟩ 0 = none ∧
      fetchClaudeUsage
        ⟨fun _ => NetResult.resp false (.ok ⟨none, none, none, none⟩),
          NetResult.resp false (.ok none), fun _ => NetResult.netErr⟩ "tok" = none :=
  ⟨(claim_C7_failures_collapse_to_none ⟨false, .ok none⟩ NetResult.netErr
      ⟨fun _ => NetResult.netErr, NetResult.netErr, fun _ => NetResult.netErr⟩ 0).1 rfl,
    (claim_C7_failures_collapse_to_none ⟨false, .ok none⟩ NetResult.netErr
      ⟨fun _ => NetResult.resp false (.ok ⟨none, none, none, none⟩),
        NetResult.resp false (.ok none), fun _ => NetResult.netErr⟩ 0).2.2.2.2.2.1 "tok"
      rfl (fun _ => trivial)⟩

/-! Claim C4. -/

theorem jsTrim_data (s : String) : (jsTrim s).data = jsTrimData s.data := rfl

theorem localSection_shape (s : LocalState) (now : ℤ) :
    ∃ mid : List Char, (localSection s now).data = mid ++ [' ', '|', '\n'] ∧
      ("## Local Session Tracking").data <:+: mid := by
  unfold localSection
  rw [String.data_append]
  refine ⟨_, rfl, ?_⟩
  simp only [String.data_append, List.append_assoc]
  exact (show ("## Local Session Tracking").data <:+:
      ("\n---\n\n## Local Session Tracking\n\n| Metric | Value |\n|--------|-------|\n| Tokens Used | ").data
      by decide).trans (List.prefix_append _ _).isInfix

/-- Claim C4: with no credential file at any candidate path (so the remote
fetch is Unavailable), the `quota` tool's Markdown contains the defined
could-not-fetch fallback block and still contains the Local Session Tracking
section, which is a non-empty string — in particular after at least one
qualifying `message.updated` event (`1 ≤ s.requests`). -/
theorem claim_C4_fallback_keeps_local_section (aenv : AuthFileEnv)
    (renv : NetResult (Option String)) (net : NetEnv) (s : LocalState) (now : ℤ)
    (hnofile : aenv.fileExists = false) (_hreq : 1 ≤ s.requests) :
    strContains (quotaExecute aenv renv net s now) fallbackBlockTrimmed ∧
    strContains (quotaExecute aenv renv net s now) "## Local Session Tracking" ∧
    localSection s now ≠ "" := by
  have hpipe : quotaFetchPipeline aenv renv net now = none :=
    pipeline_none_of_auth_none _ _ _ _ (getAnthropicAuth_none_of_noFile _ hnofile)
  obtain ⟨mid, hmid, hloc⟩ := localSection_shape s now
  have hout : (quotaExecute aenv renv net s now).data =
      fallbackSection.data.dropWhile isJsWs ++ (mid ++ [' ', '|']) := by
    unfold quotaExecute quotaToolOutput
    rw [hpipe]
    show (jsTrim (fallbackSection ++ localSection s now)).data = _
    rw [jsTrim_data, String.data_append, hmid]
    exact jsTrimData_concat _ _ (by decide)
  refine ⟨?_, ?_, ?_⟩
  · unfold strContains
    rw [hout]
    exact (List.prefix_append _ _).isInfix
  · unfold strContains
    rw [hout]
    refine hloc.trans ⟨fallbackSection.data.dropWhile isJsWs, [' ', '|'], ?_⟩
    simp [List.append_assoc]
  · intro heq
    have hdata : (localSection s now).data = [] := by rw [heq]
    rw [hmid] at hdata
    simp at hdata

/-- Witness for claim C4 at a concrete missing-credential environment and a
state that has absorbed one qualifying event. -/
theorem claim_C4_fallback_keeps_local_section_witness :
    strContains
        (quotaExecute ⟨false, .ok none⟩ NetResult.netErr
          ⟨fun _ => NetResult.netErr, NetResult.netErr, fun _ => NetResult.netErr⟩
          ⟨100, 50, 30, 0, 1, 0⟩ 60000) fallbackBlockTrimmed ∧
      strContains
        (quotaExecute ⟨false, .ok none⟩ NetResult.netErr
          ⟨fun _ => NetResult.netErr, NetResult.netErr, fun _ => NetResult.netErr⟩
          ⟨100, 50, 30, 0, 1, 0⟩ 60000) "## Local Session Tracking" ∧
      localSection ⟨100, 50, 30, 0, 1, 0⟩ 60000 ≠ "" :=
  claim_C4_fallback_keeps_local_section ⟨false, .ok none⟩ NetResult.netErr
    ⟨fun _ => NetResult.netErr, NetResult.netErr, fun _ => NetResult.netErr⟩
    ⟨100, 50, 30, 0, 1, 0⟩ 60000 rfl (by decide)

/-! Sanity evaluations of the embedding on concrete inputs. -/

theorem eval_formatProgressBar_8_percent :
    formatProgressBar 8 20 = "[██░░░░░░░░░░░░░░░░░░]" := by decide

theorem eval_jsToLocaleString : jsToLocaleString 15234 = "15,234" := by decide

theorem eval_toFixed4 : toFixed4 ((234 : ℚ) / 10000) = "0.0234" := by decide

theorem eval_formatTimeRemaining_under_a_day :
    formatTimeRemaining (some 14280000) 0 = "3h 58m" := by decide

theorem eval_quotaToolOutput_unavailable :
    quotaToolOutput none ⟨100, 50, 30, 0, 1, 0⟩ 60000 =
      "## Claude Code Quota\n\nCould not fetch quota from Claude.ai\n\nPossible reasons:\n- Not logged in with Claude Pro/Max (OAuth)\n- Access token expired and refresh failed\n- API endpoint changed\n\nTo see your actual quota:\n1. Visit https://claude.ai/settings\n2. Check \"Usage summary\" section\n\n---\n\n## Local Session Tracking\n\n| Metric | Value |\n|--------|-------|\n| Tokens Used | 180 |\n| Input | 100 |\n| Output | 50 |\n| Cache | 30 |\n| Requests | 1 |\n| Session Time | 1 min |\n| Est. Cost | $0.0000 |" := by
  set_option maxRecDepth 10000 in decide
